import Mathlib

/-!
Verification development for the tracing core of `dd-trace-py`
(`ddtrace/tracer.py` and `ddtrace/contrib/gevent/provider.py`).

The Python code is shallowly embedded: mutable objects become explicit
state passed through pure functions, Python `dict`s become association
lists, Python unbounded `int`s become `Int`, and statements that can raise
become `Option`/`Except` results (with `none`/`.error` at the raise).
-/

/-- Tag keys from `ddtrace/constants.py` (the bit-exact strings the spec, §6,
requires on the wire). -/
def SAMPLING_PRIORITY_KEY : String := "_sampling_priority_v1"

/-- Meta tag key for the trace origin. -/
def ORIGIN_KEY : String := "_dd.origin"

/-- Metric key for the primary sample rate. -/
def SAMPLE_RATE_METRIC_KEY : String := "_sample_rate"

/-- Modelled from the spec: `ddtrace.ext.priority` is not among the source
files; §3 of the spec fixes `AUTO_KEEP = 1`. -/
def AUTO_KEEP : Int := 1

/-- Modelled from the spec: `ddtrace.ext.priority` is not among the source
files; §3 of the spec fixes `AUTO_REJECT = 0`. -/
def AUTO_REJECT : Int := 0

/-- Python dict update `d[k] = v` on an association list: overwrite the
binding in place or append a fresh one. -/
def dictSet {κ α : Type} [DecidableEq κ] :
    List (κ × α) → κ → α → List (κ × α)
  | [], k, v => [(k, v)]
  | (k', v') :: rest, k, v =>
    if k' = k then (k, v) :: rest else (k', v') :: dictSet rest k v

/-- Python dict lookup `d.get(k)` on an association list. -/
def dictGet {κ α : Type} [DecidableEq κ] :
    List (κ × α) → κ → Option α
  | [], _ => none
  | (k', v') :: rest, k => if k' = k then some v' else dictGet rest k

/-- Python dict deletion `del d[k]` on an association list. -/
def dictDel {κ α : Type} [DecidableEq κ] (d : List (κ × α)) (k : κ) :
    List (κ × α) :=
  d.filter (fun p => decide (p.1 ≠ k))

/-- Modelled from the spec: the `Span` class (`ddtrace/span.py`) is not among
the source files.  §3 of the spec describes a span as a value carrying the
identity `(trace_id, span_id, parent_id?)`, an optional `service`, `meta`
(string to string), `metrics` (string to number) and a `finished` flag.  The
metric values relevant to the claims are integer sampling priorities, so
metric values are embedded as `Int`. -/
structure Span where
  trace_id : Nat
  span_id : Nat
  parent_id : Option Nat := none
  service : Option String := none
  meta : List (String × String) := []
  metrics : List (String × Int) := []
  finished : Bool := false
deriving Repr, DecidableEq

/-- `Span.set_metric` (spec §4.2): store a metric under its key. -/
def Span.set_metric (s : Span) (k : String) (v : Int) : Span :=
  { s with metrics := dictSet s.metrics k v }

/-- Assignment `span.meta[key] = value` as used at tracer.py line 122. -/
def Span.setMeta (s : Span) (k : String) (v : String) : Span :=
  { s with meta := dictSet s.meta k v }

/-- `_Trace` from `ddtrace/tracer.py` lines 56-89.  The Python attributes
`_num_finished` and `_spans` keep their `attrs` init names `num_finished` and
`spans`; the per-trace lock disappears in the sequential embedding. -/
structure _Trace where
  trace_id : Nat
  sampled : Bool := true
  sampling_priority : Option Int := none
  dd_origin : Option String := none
  num_finished : Int := 0
  spans : List Span := []
deriving Repr, DecidableEq

/-- `_Trace.add_span` (tracer.py lines 102-105): append under the lock. -/
def _Trace.add_span (t : _Trace) (s : Span) : _Trace :=
  { t with spans := t.spans ++ [s] }

/-- Python truthiness of the optional string `self.dd_origin`: `None` and the
empty string are falsy, every other string is truthy. -/
def strTruthy : Option String → Bool
  | none => false
  | some s => s ≠ ""

/-- Default of the module constant `partial_flush_enabled`
(tracer.py line 42). -/
def partial_flush_enabled : Bool := true

/-- Default of the module constant `partial_flush_min_spans`
(tracer.py line 43). -/
def partial_flush_min_spans : Nat := 500

/-- Chunk-root stamping inside `_Trace.finish_span` (tracer.py lines
117-122).  `if chunk_root:` is always true for a span object and is dropped;
the two guarded stampings are kept verbatim: `self.sampling_priority is not
None and self.sampled` for the metric, and the truthiness test
`if self.dd_origin:` for the meta tag (`str` applied to a string is the
identity). -/
def stampChunkRoot (t : _Trace) (s : Span) : Span :=
  let s1 :=
    match t.sampling_priority with
    | some p => if t.sampled then s.set_metric SAMPLING_PRIORITY_KEY p else s
    | none => s
  match t.dd_origin with
  | some o => if o ≠ "" then s1.setMeta ORIGIN_KEY o else s1
  | none => s1

/-- `_Trace.finish_span` (tracer.py lines 107-128).  The module constants
`partial_flush_enabled` / `partial_flush_min_spans` are passed as the
arguments `pfEnabled` / `pfMin`.  The Python method first increments
`self._num_finished`; here the incremented value `t.num_finished + 1` is
written out at each use.  The result is the returned triple
`(finished_spans, sampled, trace_done)` together with the trace state after
the call; `none` stands for the `IndexError` the Python raises at
`finished_spans[0]` when a flush triggers with no finished span in the
list. -/
def _Trace.finish_span (pfEnabled : Bool) (pfMin : Nat) (t : _Trace) :
    Option (List Span × Bool × Bool × _Trace) :=
  if t.num_finished + 1 = (t.spans.length : Int) ∨
      (pfEnabled = true ∧ (pfMin : Int) ≤ t.num_finished + 1) then
    match t.spans.filter (fun s => s.finished) with
    | [] => none
    | chunk_root :: rest =>
      some (stampChunkRoot t chunk_root :: rest, t.sampled,
        (t.spans.filter (fun s => !s.finished)).isEmpty,
        { t with spans := t.spans.filter (fun s => !s.finished),
                 num_finished := t.num_finished + 1 -
                   ((stampChunkRoot t chunk_root :: rest).length : Int) })
  else
    some ([], false, false, { t with num_finished := t.num_finished + 1 })

/-- The aggregator mapping `Tracer._traces : Dict[int, _Trace]`
(tracer.py line 190). -/
abbrev Traces := List (Nat × _Trace)

/-- `Tracer._get_or_create_trace` (tracer.py lines 253-261): return the
registered trace, or register and return a fresh `_Trace(trace_id=trace_id)`
(all other attributes at their defaults). -/
def _get_or_create_trace (m : Traces) (trace_id : Nat) : _Trace × Traces :=
  match dictGet m trace_id with
  | some t => (t, m)
  | none =>
    let t : _Trace := { trace_id := trace_id }
    (t, dictSet m trace_id t)

/-- The aggregator phase of `Tracer._finish_span` (tracer.py lines 679-690):
look the trace up, re-creating it when it was already removed, run
`_Trace.finish_span` on it, delete the trace from the mapping when
`trace_done`, and hand the batch to the writer iff it is non-empty and
`sampled`.  The earlier phase (lines 669-677) only rebinds the context
provider's active span and does not touch the mapping or the writer.  In
Python the trace object is mutated in place; here the updated trace is
written back before the possible deletion.  Returns the new mapping together
with the batch passed to `self.write` (`[]` when nothing is written); `none`
where `finish_span` raises. -/
def Tracer.finish_span_agg (pfEnabled : Bool) (pfMin : Nat) (m : Traces)
    (span : Span) : Option (Traces × List Span) :=
  let tm := _get_or_create_trace m span.trace_id
  match _Trace.finish_span pfEnabled pfMin tm.1 with
  | none => none
  | some (spans, sampled, trace_done, trace') =>
    let m2 := dictSet tm.2 span.trace_id trace'
    let m3 := if trace_done then dictDel m2 span.trace_id else m2
    some (m3, if spans ≠ [] ∧ sampled = true then spans else [])

/-- The slice of tracer state read and written by
`Tracer._check_new_process`. -/
structure TracerProc where
  pid : Nat
  traces : Traces
  reseeded : Bool := false
  services : List String := []
deriving Repr, DecidableEq

/-- `Tracer._check_new_process` (tracer.py lines 703-735).  When the current
PID equals the recorded one it returns unchanged.  Otherwise it stores the
new PID and reseeds the identifier source (`_rand.seed()`), then executes
`for trace_id, trace in self._traces:`.  Iterating a Python dict yields its
keys, so each iteration attempts to unpack an `int` key into the pair
`(trace_id, trace)` and raises `TypeError` as soon as the mapping is
non-empty; the loop body `trace.spans = []` (which would in any case set a
fresh attribute `spans`, not the `_spans` list read at flush time) and the
statements after the loop are then never reached.  On the empty mapping the
loop is a no-op and the services set is reset (writer and runtime-worker
re-creation live outside the modelled state). -/
def Tracer.check_new_process (currentPid : Nat) (tr : TracerProc) :
    Except String TracerProc :=
  if tr.pid = currentPid then .ok tr
  else
    let tr1 := { tr with pid := currentPid, reseeded := true }
    match tr1.traces with
    | [] => .ok { tr1 with services := [] }
    | _ :: _ => .error "TypeError: cannot unpack non-iterable int object"

/-- The entry of `Tracer.start_span` (tracer.py line 533): its very first
statement is `self._check_new_process()`, so an exception raised there
propagates directly to the caller of `start_span`. -/
def Tracer.start_span_entry (currentPid : Nat) (tr : TracerProc) :
    Except String TracerProc :=
  Tracer.check_new_process currentPid tr

/-- The service-precedence block of `Tracer.start_span` (tracer.py lines
548-552): `if service is None: service = parent.service if parent else
config.service` (as if/else in the source).  `parent` is the `child_of`
argument when that is a live `Span` (line 540), and `configService` is the
global `config.service`. -/
def startSpanService (service : Option String) (parent : Option Span)
    (configService : Option String) : Option String :=
  match service with
  | some s => some s
  | none =>
    match parent with
    | some p => p.service
    | none => configService

/-- The spec's wording of service precedence (§4.6.1): the first defined of
the explicit `service` argument, the parent span's service, and the global
configured service.  Stated for comparison with `startSpanService`. -/
def specFirstDefinedService (service : Option String) (parent : Option Span)
    (configService : Option String) : Option String :=
  (service.orElse (fun _ => parent.bind (fun p => p.service))).orElse
    (fun _ => configService)

/-- The sampler inputs of the root-span branch of `Tracer.start_span`:
which primary sampler class is configured, its decision for this span, its
rate, and the optional priority sampler's decision (`none` when
`self.priority_sampler is None`).  The rate is a float in Python; no claim
depends on its value, so it is embedded as `Int`. -/
structure SamplingCfg where
  samplerIsDatadog : Bool
  samplerIsRate : Bool
  sampleRate : Int := 0
  sampleDecision : Bool
  prioritySampler : Option Bool
deriving Repr, DecidableEq

/-- The root-span sampling block of `Tracer.start_span` (tracer.py lines
600-627): computes the pair later stored as `(trace.sampled,
trace.sampling_priority)` and the span after the possible
`SAMPLE_RATE_METRIC_KEY` stamping on the legacy `RateSampler` path. -/
def rootSamplingDecision (cfg : SamplingCfg) (span : Span) :
    Bool × Option Int × Span :=
  let sampled := cfg.sampleDecision
  if cfg.samplerIsDatadog = false then
    if sampled then
      let span1 :=
        if cfg.samplerIsRate then
          span.set_metric SAMPLE_RATE_METRIC_KEY cfg.sampleRate
        else span
      match cfg.prioritySampler with
      | some pd =>
        (sampled, some (if pd then AUTO_KEEP else AUTO_REJECT), span1)
      | none => (sampled, none, span1)
    else
      match cfg.prioritySampler with
      | some _ => (sampled, some AUTO_REJECT, span)
      | none => (sampled, none, span)
  else
    (true, some (if sampled then AUTO_KEEP else AUTO_REJECT), span)

/-- Registration of a fresh root span (tracer.py lines 628-631): run the
sampling block, then `trace = self._get_or_create_trace(span.trace_id);
trace.sampled = sampled; trace.sampling_priority = sampling_priority;
trace.add_span(span)`. -/
def startRootRegister (cfg : SamplingCfg) (m : Traces) (span : Span) :
    Traces :=
  let r := rootSamplingDecision cfg span
  let tm := _get_or_create_trace m span.trace_id
  dictSet tm.2 span.trace_id
    (_Trace.add_span { tm.1 with sampled := r.1, sampling_priority := r.2.1 }
      r.2.2)

/-- The claim C7 case analysis of the combined sampling decision, written
from the spec (§4.5, "Combined decision") for comparison with
`rootSamplingDecision`. -/
def specCombinedDecision (cfg : SamplingCfg) : Bool × Option Int :=
  if cfg.samplerIsDatadog then
    (true, some (if cfg.sampleDecision then AUTO_KEEP else AUTO_REJECT))
  else
    (cfg.sampleDecision,
      match cfg.prioritySampler with
      | none => none
      | some pd =>
        if cfg.sampleDecision = false then some AUTO_REJECT
        else if pd then some AUTO_KEEP else some AUTO_REJECT)

/-- The `Context` snapshot (spec §3): `(trace_id, span_id,
sampling_priority?, dd_origin?)`. -/
structure Context where
  trace_id : Nat
  span_id : Nat
  sampling_priority : Option Int := none
  dd_origin : Option String := none
deriving Repr, DecidableEq

/-- `Tracer.activate` on a `Context` argument (tracer.py lines 314-325):
build `_Trace(trace_id=ctx.trace_id, sampling_priority=ctx.sampling_priority,
dd_origin=ctx.dd_origin)` — every other attribute at its default — and store
it in the mapping under that trace id, replacing whatever was there. -/
def Tracer.activate_context (m : Traces) (ctx : Context) : Traces :=
  let trace : _Trace :=
    { trace_id := ctx.trace_id,
      sampling_priority := ctx.sampling_priority,
      dd_origin := ctx.dd_origin }
  dictSet m trace.trace_id trace

/-- A greenlet as the gevent context provider sees it: the single
`__datadog_context` attribute slot (`CONTEXT_ATTR`);
`getattr(g, CONTEXT_ATTR, None)` yields `none` while the attribute was never
set. -/
structure Greenlet (α : Type) where
  datadog_context : Option α := none
deriving Repr, DecidableEq

/-- `GeventContextProvider._get_current_context` (provider.py lines 17-22):
read the attribute of the current greenlet, `None` when there is no current
greenlet. -/
def GeventContextProvider.get_current_context {α : Type}
    (current_g : Option (Greenlet α)) : Option α :=
  match current_g with
  | some g => g.datadog_context
  | none => none

/-- `GeventContextProvider.activate` (provider.py lines 28-33): set the
attribute on the current greenlet and return the context; when
`gevent.getcurrent()` is `None` nothing is set and `None` is returned
implicitly.  The result is the updated current greenlet together with the
returned value. -/
def GeventContextProvider.activate {α : Type}
    (current_g : Option (Greenlet α)) (context : α) :
    Option (Greenlet α) × Option α :=
  match current_g with
  | some _ => (some { datadog_context := some context }, some context)
  | none => (none, none)

/-- `GeventContextProvider.active` (provider.py lines 35-38). -/
def GeventContextProvider.active {α : Type}
    (current_g : Option (Greenlet α)) : Option α :=
  GeventContextProvider.get_current_context current_g

/-- Trace states reachable from a fresh trace by `add_span` and by
`finish_span` calls obeying the normal-operation discipline: each
`finish_span` is made on behalf of a span that was added to the trace and
marked finished just before the call, so at call time the finished spans in
the list number exactly one more than `num_finished`. -/
inductive DisciplinedReach (pfEnabled : Bool) (pfMin : Nat) : _Trace → Prop
  | init (trace_id : Nat) :
      DisciplinedReach pfEnabled pfMin { trace_id := trace_id }
  | add {t : _Trace} (s : Span) :
      DisciplinedReach pfEnabled pfMin t →
      DisciplinedReach pfEnabled pfMin (t.add_span s)
  | finish {t : _Trace} {batch : List Span} {sampled done : Bool}
      {t' : _Trace} :
      DisciplinedReach pfEnabled pfMin t →
      ((t.spans.filter (fun s => s.finished)).length : Int) =
        t.num_finished + 1 →
      _Trace.finish_span pfEnabled pfMin t = some (batch, sampled, done, t') →
      DisciplinedReach pfEnabled pfMin t'

/-- A finished span with empty tag dictionaries, used as concrete input. -/
def c1span : Span := { trace_id := 1, span_id := 2, finished := true }

/-- A trace holding exactly one finished span, used as concrete input. -/
def c1trace : _Trace := { trace_id := 1, spans := [c1span] }

/-- A finished span with empty tag dictionaries, used as concrete input. -/
def c2span : Span := { trace_id := 3, span_id := 4, finished := true }

/-- A sampled trace with a priority, an origin and one finished span, used
as concrete input. -/
def c2trace : _Trace :=
  { trace_id := 3, sampled := true, sampling_priority := some 1,
    dd_origin := some "synthetics", spans := [c2span] }

/- ————————————————————————————————————————————————————————————————————— -/
/- Helper lemmas -/

theorem dictGet_dictSet {κ α : Type} [DecidableEq κ]
    (d : List (κ × α)) (k k' : κ) (v : α) :
    dictGet (dictSet d k v) k' = if k' = k then some v else dictGet d k' := by
  induction d with
  | nil =>
    by_cases h : k' = k
    · simp [dictSet, dictGet, h]
    · simp [dictSet, dictGet, h, Ne.symm h]
  | cons p rest ih =>
    obtain ⟨pk, pv⟩ := p
    by_cases hpk : pk = k
    · subst hpk
      by_cases h : k' = pk
      · simp [dictSet, dictGet, h]
      · simp [dictSet, dictGet, h, Ne.symm h]
    · by_cases h : pk = k'
      · subst h
        simp [dictSet, dictGet, hpk, eq_comm]
      · simp [dictSet, dictGet, hpk, h, ih]

theorem stampChunkRoot_span_id (t : _Trace) (s : Span) :
    (stampChunkRoot t s).span_id = s.span_id := by
  unfold stampChunkRoot Span.set_metric Span.setMeta
  cases t.sampling_priority <;> cases t.dd_origin <;> dsimp only <;>
    repeat (first | rfl | split)

theorem rootSamplingDecision_fst (cfg : SamplingCfg) (span : Span) :
    (rootSamplingDecision cfg span).1 = (specCombinedDecision cfg).1 := by
  obtain ⟨iD, iR, rate, dec, pr⟩ := cfg
  rcases pr with _ | pd
  · cases iD <;> cases iR <;> cases dec <;> rfl
  · cases pd <;> cases iD <;> cases iR <;> cases dec <;> rfl

theorem rootSamplingDecision_priority (cfg : SamplingCfg) (span : Span) :
    (rootSamplingDecision cfg span).2.1 = (specCombinedDecision cfg).2 := by
  obtain ⟨iD, iR, rate, dec, pr⟩ := cfg
  rcases pr with _ | pd
  · cases iD <;> cases iR <;> cases dec <;> rfl
  · cases pd <;> cases iD <;> cases iR <;> cases dec <;> rfl

/- ————————————————————————————————————————————————————————————————————— -/
/- Claim theorems -/

/-- C9: for the gevent context provider, within a single execution flow (a
current greenlet exists), `activate x` returns `x`, and a subsequent
`active` with no intervening activation in that flow returns the same `x`;
`active` in a flow with no prior activation (the context attribute was never
set) returns nothing. -/
theorem C9_gevent_activate_active {α : Type} (g : Greenlet α) (x : α) :
    (GeventContextProvider.activate (some g) x).2 = some x ∧
    GeventContextProvider.active
      (GeventContextProvider.activate (some g) x).1 = some x ∧
    GeventContextProvider.active (some ({ } : Greenlet α)) = none :=
  ⟨rfl, rfl, rfl⟩

/-- C10: `Tracer.activate` on a `Context` unconditionally installs a
brand-new trace entry under the context's trace id — `sampled` defaulting to
true, empty span list, zero finished count, and the context's
`sampling_priority` and `dd_origin` — replacing any existing entry under
that id, while every other entry of the mapping is untouched. -/
theorem C10_activate_context_installs_fresh_trace
    (m : Traces) (ctx : Context) (id : Nat) :
    dictGet (Tracer.activate_context m ctx) id =
      if id = ctx.trace_id then
        some { trace_id := ctx.trace_id, sampled := true,
               sampling_priority := ctx.sampling_priority,
               dd_origin := ctx.dd_origin, num_finished := 0, spans := [] }
      else dictGet m id := by
  unfold Tracer.activate_context
  exact dictGet_dictSet m ctx.trace_id id _

/-- C7: for a root span, the pair `(sampled, sampling_priority)` stored on
the trace by `start_span` agrees, in every sampler configuration, with the
spec's combined decision: with the default combined sampler, `sampled` is
true unconditionally and the priority is AUTO_KEEP or AUTO_REJECT by the
sampler's decision; on the legacy path, `sampled` is the primary decision
and the priority is AUTO_REJECT when the primary dropped and a priority
sampler exists, AUTO_KEEP when both kept, AUTO_REJECT when the primary kept
but the priority sampler dropped, and absent when there is no priority
sampler. -/
theorem C7_root_sampling_matches_spec
    (cfg : SamplingCfg) (m : Traces) (span : Span) :
    ∃ t : _Trace,
      dictGet (startRootRegister cfg m span) span.trace_id = some t ∧
      t.sampled = (specCombinedDecision cfg).1 ∧
      t.sampling_priority = (specCombinedDecision cfg).2 := by
  refine ⟨_Trace.add_span
      { (_get_or_create_trace m span.trace_id).1 with
        sampled := (rootSamplingDecision cfg span).1,
        sampling_priority := (rootSamplingDecision cfg span).2.1 }
      (rootSamplingDecision cfg span).2.2, ?_, ?_, ?_⟩
  · show dictGet
        (dictSet (_get_or_create_trace m span.trace_id).2 span.trace_id
          (_Trace.add_span
            { (_get_or_create_trace m span.trace_id).1 with
              sampled := (rootSamplingDecision cfg span).1,
              sampling_priority := (rootSamplingDecision cfg span).2.1 }
            (rootSamplingDecision cfg span).2.2)) span.trace_id = _
    rw [dictGet_dictSet, if_pos rfl]
  · exact rootSamplingDecision_fst cfg span
  · exact rootSamplingDecision_priority cfg span

/-- C8 counterexample: with no explicit service, a parent span whose own
service is undefined, and a configured global service, `start_span` leaves
the service undefined, while the claimed first-defined rule would pick the
global service. -/
theorem C8_counterexample :
    startSpanService none (some { trace_id := 1, span_id := 2 })
        (some "g") = none ∧
    specFirstDefinedService none (some { trace_id := 1, span_id := 2 })
        (some "g") = some "g" :=
  ⟨rfl, rfl⟩

/-- C8 amended: the span's service equals the first defined of the explicit
argument, the parent span's service and the global configured service,
except that when the explicit argument is undefined and a parent span exists
whose service is undefined, the chosen service is undefined — the global
service is not consulted. -/
theorem C8_amended_service_precedence
    (svc cfgS : Option String) (parent : Option Span) :
    startSpanService svc parent cfgS =
        specFirstDefinedService svc parent cfgS ∨
      (svc = none ∧ ∃ p, parent = some p ∧ p.service = none ∧
        startSpanService svc parent cfgS = none ∧
        specFirstDefinedService svc parent cfgS = cfgS) := by
  rcases svc with _ | s
  · rcases parent with _ | p
    · left; rfl
    · rcases hps : p.service with _ | ps
      · right
        exact ⟨rfl, p, rfl, hps,
          by simp [startSpanService, hps],
          by simp [specFirstDefinedService, hps, Option.orElse]⟩
      · left
        simp [startSpanService, specFirstDefinedService, hps, Option.orElse]
  · left; rfl

/-- C5 is refuted by the code: `start_span` begins with
`_check_new_process`, and after a PID change with a non-empty trace mapping
that method executes `for trace_id, trace in self._traces:`, which iterates
the dict's integer keys and raises `TypeError` at the tuple unpacking — so
`start_span` raises to its caller. -/
theorem C5_start_span_after_fork_raises :
    Tracer.start_span_entry 2
        { pid := 1, traces := [(7, { trace_id := 7 })] } =
      .error "TypeError: cannot unpack non-iterable int object" := rfl

/-- C6 is refuted by the code: on a PID change with a registered trace that
still holds a span, `_check_new_process` raises `TypeError` while iterating
the mapping, so no trace's span list is ever emptied (and the unreachable
loop body would assign a fresh `spans` attribute, not the `_spans` list read
at flush time). -/
theorem C6_fork_does_not_clear_spans :
    Tracer.check_new_process 2
        { pid := 1,
          traces := [(7, { trace_id := 7,
                           spans := [{ trace_id := 7, span_id := 8 }] })] } =
      .error "TypeError: cannot unpack non-iterable int object" := rfl

/-- C3 counterexample: finishing a span whose trace entry is gone (empty
mapping) re-creates the trace, but the returned batch is empty — no solo
flush of the span — and the re-created trace remains registered under the
span's trace id with `num_finished = 1`, refuting the claimed
flush-then-discard behaviour. -/
theorem C3_counterexample :
    Tracer.finish_span_agg true 500 []
        { trace_id := 1, span_id := 2, finished := true } =
      some ([(1, { trace_id := 1, num_finished := 1 })], []) ∧
    dictGet [(1, ({ trace_id := 1, num_finished := 1 } : _Trace))] 1 =
      some { trace_id := 1, num_finished := 1 } := by
  exact ⟨by decide, by decide⟩

/-- C3 amended: finishing a span whose trace entry has been removed
re-creates the trace entry, and — provided partial flush is disabled or its
threshold exceeds one (the default is 500) — the finish returns an empty
batch, nothing is handed to the writer, and the re-created trace remains
registered with `num_finished = 1` and an empty span list; the span itself
is neither flushed nor retained. -/
theorem C3_amended_late_finish (e : Bool) (mn : Nat) (m : Traces) (s : Span)
    (hGone : dictGet m s.trace_id = none)
    (hmn : e = true → 2 ≤ mn) :
    ∃ m', Tracer.finish_span_agg e mn m s = some (m', []) ∧
      dictGet m' s.trace_id =
        some { trace_id := s.trace_id, num_finished := 1 } := by
  have hne : ¬ ((({ trace_id := s.trace_id } : _Trace).num_finished + 1 =
      ((({ trace_id := s.trace_id } : _Trace).spans.length : Nat) : Int)) ∨
      (e = true ∧ (mn : Int) ≤
        ({ trace_id := s.trace_id } : _Trace).num_finished + 1)) := by
    rintro (h | ⟨he, hle⟩)
    · simp at h
    · have h2 := hmn he
      simp at hle
      omega
  have hfs : _Trace.finish_span e mn { trace_id := s.trace_id } =
      some ([], false, false,
        { trace_id := s.trace_id, num_finished := 1 }) := by
    unfold _Trace.finish_span
    rw [if_neg hne]
    simp
  refine ⟨dictSet (dictSet m s.trace_id { trace_id := s.trace_id })
      s.trace_id { trace_id := s.trace_id, num_finished := 1 }, ?_, ?_⟩
  · simp only [Tracer.finish_span_agg, _get_or_create_trace, hGone, hfs]
    simp
  · rw [dictGet_dictSet, if_pos rfl]

/-- Witness for the amended C3 at a concrete input: the trace mapping is
empty, partial flush is at its defaults, and the hypotheses hold. -/
theorem C3_amended_witness :
    dictGet ([] : Traces) 1 = none ∧
    (true = true → 2 ≤ 500) ∧
    ∃ m', Tracer.finish_span_agg true 500 []
        { trace_id := 1, span_id := 2, finished := true } = some (m', []) ∧
      dictGet m' 1 = some { trace_id := 1, num_finished := 1 } :=
  ⟨rfl, fun _ => by omega,
    C3_amended_late_finish true 500 []
      { trace_id := 1, span_id := 2, finished := true } rfl
      (fun _ => by omega)⟩

/-- C2 counterexample: a trace whose `dd_origin` is present but is the empty
string flushes its single finished span without stamping `_dd.origin` on the
chunk root — `if self.dd_origin:` tests Python truthiness, not presence —
refuting the claimed "carries `_dd.origin` iff `dd_origin` is present". -/
theorem C2_counterexample :
    _Trace.finish_span true 500
        { trace_id := 1, dd_origin := some "",
          spans := [{ trace_id := 1, span_id := 2, finished := true }] } =
      some ([{ trace_id := 1, span_id := 2, finished := true }], true, true,
        { trace_id := 1, dd_origin := some "",
          num_finished := 0, spans := [] }) ∧
    dictGet ({ trace_id := 1, span_id := 2, finished := true } : Span).meta
      ORIGIN_KEY = none := by
  exact ⟨by decide, rfl⟩

/-- C2 amended: on a flush, the chunk root is the first finished span in
insertion order; provided it does not already carry the two keys, it carries
the metric `_sampling_priority_v1` equal to the trace's priority iff the
trace is sampled and the priority is present, and carries the meta tag
`_dd.origin` equal to the trace's origin iff the origin is present and
non-empty (Python truthiness); no other span of the batch is stamped (the
tail of the batch is the untouched remainder of the finished spans). -/
theorem C2_amended_chunk_root_stamping (e : Bool) (mn : Nat) (t : _Trace)
    (c : Span) (rest : List Span)
    (hfs : t.spans.filter (fun s => s.finished) = c :: rest)
    (hcond : t.num_finished + 1 = (t.spans.length : Int) ∨
      (e = true ∧ (mn : Int) ≤ t.num_finished + 1))
    (hm : dictGet c.metrics SAMPLING_PRIORITY_KEY = none)
    (hmeta : dictGet c.meta ORIGIN_KEY = none) :
    ∃ done t',
      _Trace.finish_span e mn t =
        some (stampChunkRoot t c :: rest, t.sampled, done, t') ∧
      (stampChunkRoot t c).span_id = c.span_id ∧
      dictGet (stampChunkRoot t c).metrics SAMPLING_PRIORITY_KEY =
        (if t.sampled = true then t.sampling_priority else none) ∧
      dictGet (stampChunkRoot t c).meta ORIGIN_KEY =
        (if strTruthy t.dd_origin = true then t.dd_origin else none) := by
  refine ⟨(t.spans.filter (fun s => !s.finished)).isEmpty,
    { t with spans := t.spans.filter (fun s => !s.finished),
             num_finished := t.num_finished + 1 -
               ((stampChunkRoot t c :: rest).length : Int) },
    ?_, stampChunkRoot_span_id t c, ?_, ?_⟩
  · unfold _Trace.finish_span
    rw [if_pos hcond, hfs]
  · unfold stampChunkRoot Span.set_metric Span.setMeta
    rcases hp : t.sampling_priority with _ | p <;>
      rcases hsm : t.sampled with _ | _ <;>
      rcases ho : t.dd_origin with _ | o <;>
      simp [hm, dictGet_dictSet] <;>
      by_cases he : o = "" <;>
      simp [he, hm, dictGet_dictSet]
  · unfold stampChunkRoot Span.set_metric Span.setMeta
    rcases hp : t.sampling_priority with _ | p <;>
      rcases hsm : t.sampled with _ | _ <;>
      rcases ho : t.dd_origin with _ | o <;>
      simp [hmeta, strTruthy, dictGet_dictSet] <;>
      by_cases he : o = "" <;>
      simp [he, hmeta, dictGet_dictSet]

/-- Witness for the amended C2 at a concrete input: a sampled trace with
priority 1, origin "synthetics" and one finished span. -/
theorem C2_amended_witness :
    c2trace.spans.filter (fun s => s.finished) = c2span :: [] ∧
    (c2trace.num_finished + 1 = (c2trace.spans.length : Int) ∨
      (true = true ∧ ((500 : Nat) : Int) ≤ c2trace.num_finished + 1)) ∧
    dictGet c2span.metrics SAMPLING_PRIORITY_KEY = none ∧
    dictGet c2span.meta ORIGIN_KEY = none ∧
    ∃ done t',
      _Trace.finish_span true 500 c2trace =
        some (stampChunkRoot c2trace c2span :: [], c2trace.sampled, done,
          t') ∧
      (stampChunkRoot c2trace c2span).span_id = c2span.span_id ∧
      dictGet (stampChunkRoot c2trace c2span).metrics
          SAMPLING_PRIORITY_KEY =
        (if c2trace.sampled = true then c2trace.sampling_priority
         else none) ∧
      dictGet (stampChunkRoot c2trace c2span).meta ORIGIN_KEY =
        (if strTruthy c2trace.dd_origin = true then c2trace.dd_origin
         else none) :=
  ⟨by decide, by decide, rfl, rfl,
    C2_amended_chunk_root_stamping true 500 c2trace c2span []
      (by decide) (by decide) rfl rfl⟩

/-- C1 counterexample: the claim's "for every trace" fails outside normal
operation — on a trace holding one unfinished span with `num_finished = 0`,
the incremented count equals the span count, so the flush condition of the
claim holds, yet there is no finished span and the code raises `IndexError`
at `finished_spans[0]` (modelled as `none`) instead of returning a non-empty
batch. -/
theorem C1_counterexample :
    _Trace.finish_span true 500
        { trace_id := 1, spans := [{ trace_id := 1, span_id := 2 }] } =
      none ∧
    ({ trace_id := 1, spans := [{ trace_id := 1, span_id := 2 }] } :
        _Trace).num_finished + 1 =
      ((({ trace_id := 1, spans := [{ trace_id := 1, span_id := 2 }] } :
        _Trace)).spans.length : Int) := by
  exact ⟨by decide, by decide⟩

/-- C1 amended: under the normal-operation discipline (`num_finished` is
non-negative and the finished spans in the list number exactly the
incremented count), `finish_span` returns, its batch is non-empty iff the
incremented `num_finished` equals the span count or partial flush is enabled
with the count at least the threshold; on flush the batch is exactly the
finished spans in order (same span ids), which are removed from the trace,
`num_finished` drops by the batch size, and `trace_done` holds iff no spans
remain. -/
theorem C1_finish_span_flush (e : Bool) (mn : Nat) (t : _Trace)
    (hnn : 0 ≤ t.num_finished)
    (hc : ((t.spans.filter (fun s => s.finished)).length : Int) =
      t.num_finished + 1) :
    ∃ batch sampledRet done t',
      _Trace.finish_span e mn t = some (batch, sampledRet, done, t') ∧
      (batch ≠ [] ↔
        (t.num_finished + 1 = (t.spans.length : Int) ∨
          (e = true ∧ (mn : Int) ≤ t.num_finished + 1))) ∧
      ((t.num_finished + 1 = (t.spans.length : Int) ∨
          (e = true ∧ (mn : Int) ≤ t.num_finished + 1)) →
        batch.map Span.span_id =
          (t.spans.filter (fun s => s.finished)).map Span.span_id ∧
        t'.spans = t.spans.filter (fun s => !s.finished) ∧
        t'.num_finished = t.num_finished + 1 - (batch.length : Int) ∧
        (done = true ↔ t'.spans = [])) := by
  by_cases hcond : t.num_finished + 1 = (t.spans.length : Int) ∨
      (e = true ∧ (mn : Int) ≤ t.num_finished + 1)
  · have hlen : (t.spans.filter (fun s => s.finished)).length ≠ 0 := by
      intro h0
      rw [h0] at hc
      omega
    obtain ⟨c, rest, hfs⟩ : ∃ c rest,
        t.spans.filter (fun s => s.finished) = c :: rest := by
      cases hf : t.spans.filter (fun s => s.finished) with
      | nil => exact (hlen (by rw [hf]; rfl)).elim
      | cons c rest => exact ⟨c, rest, rfl⟩
    refine ⟨stampChunkRoot t c :: rest, t.sampled,
      (t.spans.filter (fun s => !s.finished)).isEmpty,
      { t with spans := t.spans.filter (fun s => !s.finished),
               num_finished := t.num_finished + 1 -
                 ((stampChunkRoot t c :: rest).length : Int) }, ?_, ?_, ?_⟩
    · unfold _Trace.finish_span
      rw [if_pos hcond, hfs]
    · exact ⟨fun _ => hcond, fun _ => by simp⟩
    · intro _
      refine ⟨?_, rfl, rfl, ?_⟩
      · rw [hfs]
        simp [stampChunkRoot_span_id]
      · simp [List.isEmpty_iff]
  · refine ⟨[], false, false,
      { t with num_finished := t.num_finished + 1 }, ?_, ?_, ?_⟩
    · unfold _Trace.finish_span
      rw [if_neg hcond]
    · simp [hcond]
    · intro h
      exact absurd h hcond

/-- Witness for the amended C1 at a concrete input: a trace with one
finished span and
`num_finished = 0` flushes a non-empty batch under the default partial-flush
configuration. -/
theorem C1_witness :
    (0 : Int) ≤ c1trace.num_finished ∧
    ((c1trace.spans.filter (fun s => s.finished)).length : Int) =
      c1trace.num_finished + 1 ∧
    ∃ batch sampledRet done t',
      _Trace.finish_span true 500 c1trace =
        some (batch, sampledRet, done, t') ∧
      batch ≠ [] := by
  refine ⟨by decide, by decide, ?_⟩
  obtain ⟨b, sr, d, t', h1, h2, h3⟩ :=
    C1_finish_span_flush true 500 c1trace (by decide) (by decide)
  exact ⟨b, sr, d, t', h1, h2.mpr (Or.inl (by decide))⟩

/-- C4 counterexample: the claim's quantification includes a `finish_span`
on a freshly re-created trace; one such call on a fresh trace yields the
state `num_finished = 1` with an empty span list, violating
`num_finished ≤ len(spans)`. -/
theorem C4_counterexample :
    _Trace.finish_span true 500 { trace_id := 1 } =
      some ([], false, false, { trace_id := 1, num_finished := 1 }) ∧
    ¬ (({ trace_id := 1, num_finished := 1 } : _Trace).num_finished ≤
        ((({ trace_id := 1, num_finished := 1 } : _Trace)).spans.length :
          Int)) := by
  exact ⟨by decide, by decide⟩

theorem finish_span_preserves_bound (e : Bool) (mn : Nat)
    (t t' : _Trace) (batch : List Span) (sampled done : Bool)
    (hguard : ((t.spans.filter (fun s => s.finished)).length : Int) =
      t.num_finished + 1)
    (hfin : _Trace.finish_span e mn t = some (batch, sampled, done, t')) :
    t'.num_finished ≤ (t'.spans.length : Int) := by
  unfold _Trace.finish_span at hfin
  by_cases hcond : t.num_finished + 1 = (t.spans.length : Int) ∨
      (e = true ∧ (mn : Int) ≤ t.num_finished + 1)
  · rw [if_pos hcond] at hfin
    cases hfs : t.spans.filter (fun s => s.finished) with
    | nil =>
      rw [hfs] at hfin
      exact absurd hfin (by simp)
    | cons c rest =>
      rw [hfs] at hfin
      simp only [Option.some.injEq, Prod.mk.injEq] at hfin
      obtain ⟨h1, h2, h3, h4⟩ := hfin
      subst h4
      rw [hfs] at hguard
      simp only [List.length_cons] at hguard ⊢
      push_cast at hguard ⊢
      omega
  · rw [if_neg hcond] at hfin
    simp only [Option.some.injEq, Prod.mk.injEq] at hfin
    obtain ⟨h1, h2, h3, h4⟩ := hfin
    subst h4
    have hle : (t.spans.filter (fun s => s.finished)).length ≤
        t.spans.length := List.length_filter_le _ _
    simp only []
    omega

/-- C4 amended: `num_finished ≤ len(spans)` holds in every state reachable
from a fresh trace by `add_span` and by `finish_span` calls obeying the
normal-operation discipline (each finish is on behalf of a listed span
marked finished just before the call); the unrestricted claim — which also
admits a `finish_span` on a freshly re-created trace whose span is no longer
in the list — is refuted by the counterexample. -/
theorem C4_amended_invariant (e : Bool) (mn : Nat) (t : _Trace)
    (h : DisciplinedReach e mn t) :
    t.num_finished ≤ (t.spans.length : Int) := by
  induction h with
  | init id => simp
  | add s h ih =>
    simp only [_Trace.add_span, List.length_append, List.length_cons,
      List.length_nil]
    push_cast
    omega
  | finish h hguard hfin ih =>
    exact finish_span_preserves_bound _ _ _ _ _ _ _ hguard hfin

/-- Witness for the amended C4: the invariant holds at the state reached by
creating a trace, adding one span already marked finished, and finishing
it. -/
theorem C4_amended_witness :
    ({ trace_id := 1, num_finished := 0, spans := [] } : _Trace).num_finished
      ≤ ((({ trace_id := 1, num_finished := 0, spans := [] } :
        _Trace)).spans.length : Int) :=
  C4_amended_invariant true 500 _
    (@DisciplinedReach.finish true 500
      (_Trace.add_span { trace_id := 1 }
        { trace_id := 1, span_id := 2, finished := true })
      [{ trace_id := 1, span_id := 2, finished := true }] true true
      { trace_id := 1, num_finished := 0, spans := [] }
      (DisciplinedReach.add { trace_id := 1, span_id := 2, finished := true }
        (DisciplinedReach.init 1))
      (by decide) (by decide))
